import Mathlib

/-!
Shallow embedding of `src/main.py`, a FastAPI service with three GET handlers
(`get_bank_reports`, `get_raw_call_data`, `get_bank_deposit_data`) wrapping the
`ffiec_data_connect` library.  The external library calls
(`collect_filers_on_reporting_period`, `collect_data`) are modelled as
parameters of type `Except PyExc (List PyVal)`: either a returned list of
values or a raised exception.  Python dicts are modelled by `PyDict`, tracking
the four keys the handlers touch (`name`, `state`, `id_rssd`, `mdrm`) as
optional string values plus a count of any remaining keys (needed only for
Python's truthiness test `if not selected_filer`, where an empty dict is
falsy).  Non-dict list elements are `PyVal.other ty`, carrying the Python
type's name (used by the `debug_info` of `get_bank_reports`).
-/

/-- A Python dict as the handlers see it: the four keys they access, each
possibly absent, plus the number of any other keys (only dict truthiness
depends on those). -/
structure PyDict where
  name : Option String
  state : Option String
  id_rssd : Option String
  mdrm : Option String
  extraKeys : Nat
deriving DecidableEq, Repr

/-- An element of a list returned by the external library: a dict, or a
non-dict value of some Python type named `ty`. -/
inductive PyVal where
  | dict (d : PyDict)
  | other (ty : String)
deriving DecidableEq, Repr

/-- `substrAt hay needle`: `needle` occurs at the start of `hay`. -/
def substrAt : List Char → List Char → Bool
  | _, [] => true
  | [], _ :: _ => false
  | a :: as, b :: bs => a == b && substrAt as bs

/-- `hasSub hay needle`: `needle` occurs somewhere in `hay`. -/
def hasSub : List Char → List Char → Bool
  | [], needle => substrAt [] needle
  | hay@(_ :: rest), needle => substrAt hay needle || hasSub rest needle

/-- Python's `needle in hay` on strings. -/
def pyIn (needle hay : String) : Bool :=
  hasSub hay.data needle.data

/-- Python's `str.lower()` (character-wise lowercasing). -/
def pyLower (s : String) : String :=
  String.mk (s.data.map Char.toLower)

/-- Python truthiness of the optional `state` query parameter (`if state:`):
false for `None` and for the empty string. -/
def stateTruthy : Option String → Bool
  | none => false
  | some s => !(s == "")

/-- Python truthiness test `not d` on a dict: true iff the dict is empty. -/
def dictFalsy (d : PyDict) : Bool :=
  d.name == none && d.state == none && d.id_rssd == none && d.mdrm == none &&
    d.extraKeys == 0

/-- The match condition of the selection loops in `get_raw_call_data` (lines
73-80) and `get_bank_deposit_data` (lines 126-133), and of the filter in
`get_bank_reports` (lines 35-40): `bank_name.lower() in name.lower()`, and,
when `state` is truthy, also `state.lower() in filer_state.lower()`, where
`name = filer.get("name", "")` and `filer_state = filer.get("state", "")`. -/
def filerMatches (bank_name : String) (state : Option String) (d : PyDict) : Bool :=
  pyIn (pyLower bank_name) (pyLower (d.name.getD "")) &&
    (if stateTruthy state then
       pyIn (pyLower (state.getD "")) (pyLower (d.state.getD ""))
     else true)

/-- Whether a list element passes `isinstance(filer, dict)` and the match
condition; non-dict elements never match. -/
def valMatches (bank_name : String) (state : Option String) : PyVal → Bool
  | .dict d => filerMatches bank_name state d
  | .other _ => false

/-- The selection loop of `get_raw_call_data` (lines 68-80) and
`get_bank_deposit_data` (lines 121-133): scan the filers in order, skip
non-dicts, and `break` on the first dict satisfying the match condition;
`selected_filer` stays `None` when nothing matches. -/
def resolveFiler : List PyVal → String → Option String → Option PyDict
  | [], _, _ => none
  | .other _ :: rest, bn, st => resolveFiler rest bn st
  | .dict d :: rest, bn, st =>
      if filerMatches bn st d then some d else resolveFiler rest bn st

/-- The `filtered_filings` accumulation of `get_bank_reports` (lines 30-40):
all dict elements satisfying the match condition, in input order. -/
def filteredFilings : List PyVal → String → Option String → List PyDict
  | [], _, _ => []
  | .other _ :: rest, bn, st => filteredFilings rest bn st
  | .dict d :: rest, bn, st =>
      if filerMatches bn st d then d :: filteredFilings rest bn st
      else filteredFilings rest bn st

/-- The record filter of the `deposit_data` comprehension in
`get_bank_deposit_data` (lines 146-149): `isinstance(record, dict) and
record.get("mdrm") == deposit_mdrm`.  `dict.get` with no default returns
`None` for a missing key, which never equals the string `deposit_mdrm`;
the comparison is exact (case-sensitive) string equality. -/
def valCodeMatches (deposit_mdrm : String) : PyVal → Bool
  | .dict d => d.mdrm == some deposit_mdrm
  | .other _ => false

/-- The `deposit_data` list comprehension of `get_bank_deposit_data`
(lines 146-149). -/
def extractDeposits (time_series : List PyVal) (deposit_mdrm : String) : List PyVal :=
  time_series.filter (valCodeMatches deposit_mdrm)

/-- `type(x).__name__` as used by the `debug_info` of `get_bank_reports`. -/
def valTypeName : PyVal → String
  | .dict _ => "dict"
  | .other ty => ty

/-- A Python exception as the handlers can observe it: either a
`fastapi.HTTPException` (which subclasses `Exception`, so the blanket
`except Exception` clauses catch it too) or any other exception carrying a
message. -/
inductive PyExc where
  | httpExc (status : Nat) (detail : String)
  | generic (msg : String)
deriving DecidableEq, Repr

/-- Python's `str(e)` on an exception.  For `fastapi.HTTPException`
(starlette's `HTTPException.__str__`) this is `f"{status_code}: {detail}"`;
for other exceptions it is the carried message. -/
def excMessage : PyExc → String
  | .httpExc status detail => toString status ++ ": " ++ detail
  | .generic msg => msg

/-- The exception raised at lines 82 and 135:
`HTTPException(status_code=404, detail="Bank not found for the given reporting period")`. -/
def bankNotFound : PyExc :=
  .httpExc 404 "Bank not found for the given reporting period"

/-- What a handler invocation terminates with: a JSON body returned normally,
or an `HTTPException` escaping to the framework (status code and detail). -/
inductive HttpOutcome (β : Type) where
  | ok (body : β)
  | httpError (status : Nat) (detail : String)
deriving DecidableEq, Repr

/-- The `try ... except Exception as e: raise HTTPException(status_code=500,
detail=str(e))` boundary shared by all three handlers (lines 42-43, 93-94,
155-156): any exception raised by the body — the internal 404
`HTTPException` included, since `HTTPException` subclasses `Exception` — is
replaced by a 500 `HTTPException` whose detail is `str(e)`. -/
def runTry {β : Type} : Except PyExc β → HttpOutcome β
  | .ok b => .ok b
  | .error e => .httpError 500 (excMessage e)

/-- Response body of `get_bank_reports` (line 41). -/
structure ReportsBody where
  debug : List (String × PyVal)
  filtered_filings : List PyDict
deriving DecidableEq, Repr

/-- Response body of `get_raw_call_data` (line 92). -/
structure RawBody where
  selected_filer : PyDict
  raw_time_series : List PyVal
deriving DecidableEq, Repr

/-- Response body of `get_bank_deposit_data` (lines 150-154). -/
structure DepositBody where
  selected_filer : PyDict
  deposit_data : List PyVal
  raw_time_series : List PyVal
deriving DecidableEq, Repr

/-- Try-block body of `get_bank_reports` (lines 18-41): fetch the filers
(`filersR` models the outcome of `collect_filers_on_reporting_period`),
build `debug_info` from the first three items, and filter. -/
def reportsTry (bank_name : String) (state : Option String)
    (filersR : Except PyExc (List PyVal)) : Except PyExc ReportsBody :=
  match filersR with
  | .error e => .error e
  | .ok filers =>
      .ok ⟨(filers.take 3).map (fun v => (valTypeName v, v)),
           filteredFilings filers bank_name state⟩

/-- The `get_bank_reports` handler (lines 6-43). -/
def get_bank_reports (bank_name : String) (state : Option String)
    (filersR : Except PyExc (List PyVal)) : HttpOutcome ReportsBody :=
  runTry (reportsTry bank_name state filersR)

/-- Try-block body of `get_raw_call_data` (lines 57-92): fetch filers,
resolve the bank (raising the 404 on `if not selected_filer`, which is also
true for an empty selected dict), read `id_rssd` (possibly absent) and pass
it to `collect_data` (modelled by `collect`). -/
def rawTry (bank_name : String) (state : Option String)
    (filersR : Except PyExc (List PyVal))
    (collect : Option String → Except PyExc (List PyVal)) : Except PyExc RawBody :=
  match filersR with
  | .error e => .error e
  | .ok filers =>
      match resolveFiler filers bank_name state with
      | none => .error bankNotFound
      | some d =>
          if dictFalsy d then .error bankNotFound
          else
            match collect d.id_rssd with
            | .error e => .error e
            | .ok ts => .ok ⟨d, ts⟩

/-- The `get_raw_call_data` handler (lines 45-94). -/
def get_raw_call_data (bank_name : String) (state : Option String)
    (filersR : Except PyExc (List PyVal))
    (collect : Option String → Except PyExc (List PyVal)) : HttpOutcome RawBody :=
  runTry (rawTry bank_name state filersR collect)

/-- Try-block body of `get_bank_deposit_data` (lines 110-154): fetch filers,
resolve the bank (404 on failure), fetch the time series with the resolved
`id_rssd`, and filter for `deposit_mdrm`. -/
def depositTry (bank_name : String) (state : Option String) (deposit_mdrm : String)
    (filersR : Except PyExc (List PyVal))
    (collect : Option String → Except PyExc (List PyVal)) : Except PyExc DepositBody :=
  match filersR with
  | .error e => .error e
  | .ok filers =>
      match resolveFiler filers bank_name state with
      | none => .error bankNotFound
      | some d =>
          if dictFalsy d then .error bankNotFound
          else
            match collect d.id_rssd with
            | .error e => .error e
            | .ok ts => .ok ⟨d, extractDeposits ts deposit_mdrm, ts⟩

/-- The `get_bank_deposit_data` handler (lines 96-156). -/
def get_bank_deposit_data (bank_name : String) (state : Option String)
    (deposit_mdrm : String) (filersR : Except PyExc (List PyVal))
    (collect : Option String → Except PyExc (List PyVal)) : HttpOutcome DepositBody :=
  runTry (depositTry bank_name state deposit_mdrm filersR collect)

/-- The first dict element of a list, skipping non-dicts (spec-side helper
for the behaviour of the selection loop on an empty `bank_name`). -/
def firstDict : List PyVal → Option PyDict
  | [] => none
  | .dict d :: _ => some d
  | .other _ :: rest => firstDict rest

/-- Is a list element a dict? -/
def valIsDict : PyVal → Bool
  | .dict _ => true
  | .other _ => false

/-! ### Helper lemmas on the string primitives -/

theorem hasSub_nil_needle : ∀ hay : List Char, hasSub hay [] = true
  | [] => rfl
  | _ :: rest => by simp [hasSub, substrAt]

/-- The empty string occurs in every string. -/
theorem pyIn_empty_needle (hay : String) : pyIn "" hay = true :=
  hasSub_nil_needle hay.data

theorem pyLower_empty : pyLower "" = "" := rfl

theorem pyLower_data (s : String) : (pyLower s).data = s.data.map Char.toLower := rfl

theorem string_eq_empty_of_data {s : String} (h : s.data = []) : s = "" := by
  cases s
  simp_all

/-- A non-empty string does not occur in the empty string. -/
theorem pyIn_lower_into_empty {n : String} (h : n ≠ "") :
    pyIn (pyLower n) (pyLower "") = false := by
  have hd : n.data ≠ [] := fun hnil => h (string_eq_empty_of_data hnil)
  cases hn : n.data with
  | nil => exact absurd hn hd
  | cons c cs =>
      show hasSub (pyLower "").data (pyLower n).data = false
      rw [pyLower_data n, hn]
      rfl

theorem stateTruthy_some {q : String} (hq : q ≠ "") : stateTruthy (some q) = true := by
  simp [stateTruthy, hq]

/-! ### Helper lemmas on the selection loop -/

/-- A selected filer satisfies the match condition. -/
theorem resolveFiler_matches :
    ∀ {filers : List PyVal} {bn : String} {st : Option String} {d : PyDict},
      resolveFiler filers bn st = some d → filerMatches bn st d = true := by
  intro filers
  induction filers with
  | nil => intro bn st d h; simp [resolveFiler] at h
  | cons v rest ih =>
      intro bn st d h
      cases v with
      | other ty => exact ih h
      | dict d0 =>
          cases hfm : filerMatches bn st d0 with
          | true =>
              have hd : d0 = d := by simpa [resolveFiler, hfm] using h
              rw [hd] at hfm
              exact hfm
          | false =>
              have h2 : resolveFiler rest bn st = some d := by
                simpa [resolveFiler, hfm] using h
              exact ih h2

/-- When no element matches, the loop leaves `selected_filer` at `None`. -/
theorem resolveFiler_none_of_nomatch :
    ∀ {filers : List PyVal} {bn : String} {st : Option String},
      (∀ v ∈ filers, valMatches bn st v = false) → resolveFiler filers bn st = none := by
  intro filers
  induction filers with
  | nil => intro bn st _; rfl
  | cons v rest ih =>
      intro bn st h
      cases v with
      | other ty =>
          exact ih fun w hw => h w (List.mem_cons_of_mem _ hw)
      | dict d0 =>
          have hfm : filerMatches bn st d0 = false := h (.dict d0) (List.mem_cons_self _ _)
          simp [resolveFiler, hfm]
          exact ih fun w hw => h w (List.mem_cons_of_mem _ hw)

/-- When some element matches, the loop selects a filer. -/
theorem resolveFiler_isSome_of_match :
    ∀ {filers : List PyVal} {bn : String} {st : Option String},
      (∃ v ∈ filers, valMatches bn st v = true) →
        (resolveFiler filers bn st).isSome = true := by
  intro filers
  induction filers with
  | nil => intro bn st h; simp at h
  | cons v rest ih =>
      intro bn st h
      obtain ⟨w, hw, hmw⟩ := h
      cases v with
      | other ty =>
          rcases List.mem_cons.mp hw with h1 | h2
          · rw [h1] at hmw; simp [valMatches] at hmw
          · exact ih ⟨w, h2, hmw⟩
      | dict d0 =>
          cases hfm : filerMatches bn st d0 with
          | true => simp [resolveFiler, hfm]
          | false =>
              rcases List.mem_cons.mp hw with h1 | h2
              · rw [h1] at hmw; simp [valMatches, hfm] at hmw
              · simp [resolveFiler, hfm]
                exact ih ⟨w, h2, hmw⟩

/-- Concrete filers used by the witnesses. -/
def dTX : PyDict :=
  ⟨some "First National Bank", some "TX", some "123", none, 0⟩

def dCA : PyDict :=
  ⟨some "Second National Bank", some "CA", some "456", none, 0⟩

def filersW : List PyVal :=
  [PyVal.other "str", PyVal.dict dTX, PyVal.dict dCA]

/-- C1: the selection loops of `get_raw_call_data` and `get_bank_deposit_data`
return the first record in input order satisfying the match condition
(`bank_name` case-insensitive substring of the `name` field, and the state
filter when truthy): every selected filer sits after a prefix of
non-matching elements, and whenever some element matches, a filer is
selected, so ties are resolved by input order and at most one filer is
selected. -/
theorem resolveFiler_first_match (filers : List PyVal) (bn : String) (st : Option String) :
    (∀ d : PyDict, resolveFiler filers bn st = some d →
      ∃ pre post, filers = pre ++ PyVal.dict d :: post ∧ filerMatches bn st d = true ∧
        ∀ v ∈ pre, valMatches bn st v = false) ∧
    ((∃ v ∈ filers, valMatches bn st v = true) →
      (resolveFiler filers bn st).isSome = true) := by
  constructor
  · induction filers with
    | nil => intro d h; simp [resolveFiler] at h
    | cons v rest ih =>
        intro d h
        cases v with
        | dict d0 =>
            cases hfm : filerMatches bn st d0 with
            | true =>
                have hd : d0 = d := by simpa [resolveFiler, hfm] using h
                subst hd
                exact ⟨[], rest, rfl, hfm, by simp⟩
            | false =>
                have h2 : resolveFiler rest bn st = some d := by
                  simpa [resolveFiler, hfm] using h
                obtain ⟨pre, post, heq, hmatch, hpre⟩ := ih d h2
                refine ⟨PyVal.dict d0 :: pre, post, by simp [heq], hmatch, ?_⟩
                intro w hw
                rcases List.mem_cons.mp hw with h1 | h2
                · rw [h1]; simp [valMatches, hfm]
                · exact hpre w h2
        | other ty =>
            have h2 : resolveFiler rest bn st = some d := h
            obtain ⟨pre, post, heq, hmatch, hpre⟩ := ih d h2
            refine ⟨PyVal.other ty :: pre, post, by simp [heq], hmatch, ?_⟩
            intro w hw
            rcases List.mem_cons.mp hw with h1 | h2
            · rw [h1]; rfl
            · exact hpre w h2
  · exact resolveFiler_isSome_of_match

/-- Witness for C1 at a concrete input: `"national"` matches both dicts of
`filersW` and the loop returns the earlier one. -/
theorem resolveFiler_first_match_witness :
    ∃ pre post, filersW = pre ++ PyVal.dict dTX :: post ∧
      filerMatches "national" none dTX = true ∧
      ∀ v ∈ pre, valMatches "national" none v = false :=
  (resolveFiler_first_match filersW "national" none).1 dTX (by decide)

/-- C4: with a non-empty state filter, a selected filer's `state` field
contains the filter (case-insensitively) in addition to the `name` match,
and when no element satisfies both conditions the loop selects nothing. -/
theorem resolveFiler_state_filter (filers : List PyVal) (bn q : String) (d : PyDict)
    (hq : q ≠ "") :
    (resolveFiler filers bn (some q) = some d →
      pyIn (pyLower bn) (pyLower (d.name.getD "")) = true ∧
      pyIn (pyLower q) (pyLower (d.state.getD "")) = true) ∧
    ((∀ v ∈ filers, valMatches bn (some q) v = false) →
      resolveFiler filers bn (some q) = none) := by
  constructor
  · intro h
    have hm := resolveFiler_matches h
    have ht := stateTruthy_some hq
    simpa [filerMatches, ht] using hm
  · exact resolveFiler_none_of_nomatch

/-- Witness for C4 at a concrete input: filter `"tx"` selects `dTX`, whose
state field contains it. -/
theorem resolveFiler_state_filter_witness :
    pyIn (pyLower "first") (pyLower (dTX.name.getD "")) = true ∧
    pyIn (pyLower "tx") (pyLower (dTX.state.getD "")) = true :=
  (resolveFiler_state_filter [PyVal.dict dTX] "first" "tx" dTX (by decide)).1 (by decide)

/-- C10: with an empty `bank_name` and no state filter the selection loop
returns the first dict element of the list (the empty string is a substring
of every name); and a record missing the `name` (resp. `state`) key is read
as the empty string by `.get(..., "")`, so it cannot match unless the
corresponding search string is empty. -/
theorem resolveFiler_empty_bank_name (filers : List PyVal) (bn q : String)
    (st : Option String) (d : PyDict) :
    resolveFiler filers "" none = firstDict filers ∧
    (d.name = none → bn ≠ "" → filerMatches bn st d = false) ∧
    (d.state = none → q ≠ "" → filerMatches bn (some q) d = false) := by
  refine ⟨?_, ?_, ?_⟩
  · induction filers with
    | nil => rfl
    | cons v rest ih =>
        cases v with
        | other ty => simpa [resolveFiler, firstDict] using ih
        | dict d0 =>
            have hm : filerMatches "" none d0 = true := by
              simp [filerMatches, stateTruthy, pyLower_empty, pyIn_empty_needle]
            simp [resolveFiler, firstDict, hm]
  · intro hname hbn
    have : pyIn (pyLower bn) (pyLower (d.name.getD "")) = false := by
      rw [hname]
      exact pyIn_lower_into_empty hbn
    simp [filerMatches, this]
  · intro hstate hqne
    have hfalse : pyIn (pyLower q) (pyLower (d.state.getD "")) = false := by
      rw [hstate]
      exact pyIn_lower_into_empty hqne
    simp [filerMatches, stateTruthy_some hqne, hfalse]

/-- Witness for C10 at a concrete input: a dict with no `name` key cannot
match the non-empty `bank_name` `"x"`. -/
theorem resolveFiler_empty_bank_name_witness :
    filerMatches "x" none ⟨none, some "TX", none, none, 0⟩ = false :=
  (resolveFiler_empty_bank_name [] "x" "q" none ⟨none, some "TX", none, none, 0⟩).2.1
    rfl (by decide)

/-- A record whose `mdrm` differs from the requested code only in letter
case. -/
def dLowerMdrm : PyDict := ⟨none, none, none, some "rconb834", 0⟩

/-- Counterexample to C2: the `deposit_data` comprehension compares
`record.get("mdrm") == deposit_mdrm` by exact string equality, so a record
whose `mdrm` equals the code case-insensitively but not case-sensitively is
excluded from the result. -/
theorem extract_not_case_insensitive :
    pyLower "rconb834" = pyLower "RCONB834" ∧
    extractDeposits [PyVal.dict dLowerMdrm] "RCONB834" = [] := by
  constructor
  · decide
  · rfl

/-- C2 amended: extraction keeps exactly the dict records whose `mdrm` key
is present and equal to the code under exact (case-sensitive) string
comparison. -/
theorem extract_mem_iff (ts : List PyVal) (code : String) (v : PyVal) :
    v ∈ extractDeposits ts code ↔
      v ∈ ts ∧ ∃ d, v = PyVal.dict d ∧ d.mdrm = some code := by
  constructor
  · intro hv
    obtain ⟨hmem, hcode⟩ := List.mem_filter.mp hv
    refine ⟨hmem, ?_⟩
    cases v with
    | dict d => exact ⟨d, rfl, by simpa [valCodeMatches] using hcode⟩
    | other ty => simp [valCodeMatches] at hcode
  · rintro ⟨hmem, d, rfl, hcode⟩
    exact List.mem_filter.mpr ⟨hmem, by simp [valCodeMatches, hcode]⟩

/-- Witness for (amended) C2 at a concrete input. -/
theorem extract_mem_iff_witness :
    PyVal.dict ⟨none, none, none, some "RCONB834", 0⟩ ∈
      extractDeposits [PyVal.dict ⟨none, none, none, some "RCONB834", 0⟩] "RCONB834" :=
  (extract_mem_iff [PyVal.dict ⟨none, none, none, some "RCONB834", 0⟩] "RCONB834"
      (PyVal.dict ⟨none, none, none, some "RCONB834", 0⟩)).mpr
    ⟨by simp, ⟨none, none, none, some "RCONB834", 0⟩, rfl, rfl⟩

/-- C5: extraction returns a sublist (subsequence in original order) of the
input, of length at most the input's; on the empty list it yields the empty
list; and when no record matches it yields the empty list rather than an
error. -/
theorem extract_sublist (ts : List PyVal) (code : String) :
    List.Sublist (extractDeposits ts code) ts ∧
    (extractDeposits ts code).length ≤ ts.length ∧
    extractDeposits [] code = [] ∧
    ((∀ v ∈ ts, valCodeMatches code v = false) → extractDeposits ts code = []) := by
  refine ⟨List.filter_sublist _, List.length_filter_le _ _, rfl, ?_⟩
  intro h
  rw [extractDeposits, List.filter_eq_nil_iff]
  intro a ha
  simp [h a ha]

/-- Witness for C5 at a concrete input: a list with no matching record
extracts to the empty list. -/
theorem extract_sublist_witness :
    extractDeposits [PyVal.other "str"] "X" = [] :=
  (extract_sublist [PyVal.other "str"] "X").2.2.2 (by decide)

/-- C9: non-dict elements are skipped everywhere: the selection loops and
the `filtered_filings` filter pass over them (so they are never selected
and never appear in `filtered_filings`), extraction drops them, and every
element of `deposit_data` is a dict; the embedded operations are total over
arbitrary heterogeneous lists. -/
theorem nondicts_skipped (ty : String) (rest ts : List PyVal) (bn code : String)
    (st : Option String) :
    resolveFiler (PyVal.other ty :: rest) bn st = resolveFiler rest bn st ∧
    filteredFilings (PyVal.other ty :: rest) bn st = filteredFilings rest bn st ∧
    extractDeposits (PyVal.other ty :: ts) code = extractDeposits ts code ∧
    (extractDeposits ts code).all valIsDict = true := by
  refine ⟨rfl, rfl, ?_, ?_⟩
  · simp [extractDeposits, valCodeMatches]
  · rw [List.all_eq_true]
    intro v hv
    have hcode := (List.mem_filter.mp hv).2
    cases v with
    | dict d => rfl
    | other t => simp [valCodeMatches] at hcode

/-! ### Handler-level claims -/

/-- C8: every exception raised inside a handler's try block is caught by the
blanket `except Exception` and re-surfaced as an HTTPException with status
500 embedding `str(e)`: for all three handlers when the filers fetch raises,
and for both `get_raw_call_data` and `get_bank_deposit_data` when the
time-series fetch raises after a successful resolution; no exception
escapes unwrapped. -/
theorem handlers_wrap_exceptions (e : PyExc) (bn dm : String) (st : Option String)
    (collect : Option String → Except PyExc (List PyVal)) (filers : List PyVal)
    (d : PyDict) :
    get_bank_reports bn st (Except.error e) = HttpOutcome.httpError 500 (excMessage e) ∧
    get_raw_call_data bn st (Except.error e) collect =
      HttpOutcome.httpError 500 (excMessage e) ∧
    get_bank_deposit_data bn st dm (Except.error e) collect =
      HttpOutcome.httpError 500 (excMessage e) ∧
    (resolveFiler filers bn st = some d → dictFalsy d = false →
      collect d.id_rssd = Except.error e →
        get_bank_deposit_data bn st dm (Except.ok filers) collect =
          HttpOutcome.httpError 500 (excMessage e)) ∧
    (resolveFiler filers bn st = some d → dictFalsy d = false →
      collect d.id_rssd = Except.error e →
        get_raw_call_data bn st (Except.ok filers) collect =
          HttpOutcome.httpError 500 (excMessage e)) := by
  refine ⟨rfl, rfl, rfl, ?_, ?_⟩
  · intro h1 h2 h3
    simp [get_bank_deposit_data, depositTry, h1, h2, h3, runTry]
  · intro h1 h2 h3
    simp [get_raw_call_data, rawTry, h1, h2, h3, runTry]

/-- Witness for C8 at a concrete input: the time-series fetch raising after
a successful resolution surfaces as the 500 wrapping, in both handlers that
reach that stage. -/
theorem handlers_wrap_exceptions_witness :
    get_bank_deposit_data "first" none "RCONB834" (Except.ok [PyVal.dict dTX])
        (fun _ => Except.error (PyExc.generic "boom")) =
      HttpOutcome.httpError 500 (excMessage (PyExc.generic "boom")) ∧
    get_raw_call_data "first" none (Except.ok [PyVal.dict dTX])
        (fun _ => Except.error (PyExc.generic "boom")) =
      HttpOutcome.httpError 500 (excMessage (PyExc.generic "boom")) :=
  ⟨(handlers_wrap_exceptions (PyExc.generic "boom") "first" "RCONB834" none
      (fun _ => Except.error (PyExc.generic "boom")) [PyVal.dict dTX] dTX).2.2.2.1
    (by decide) (by decide) rfl,
   (handlers_wrap_exceptions (PyExc.generic "boom") "first" "RCONB834" none
      (fun _ => Except.error (PyExc.generic "boom")) [PyVal.dict dTX] dTX).2.2.2.2
    (by decide) (by decide) rfl⟩

/-- C3 (code bug): with an empty filers list (or any list with no match) the
handlers raise the internal 404 `HTTPException`, but the blanket
`except Exception` catches it — `fastapi.HTTPException` subclasses
`Exception` — and re-raises status 500 with `str(e)` as detail, so the
request terminates with a 500, not the 404 the code intends at lines 82
and 135. -/
theorem notfound_rewrapped_as_500 :
    get_bank_deposit_data "Chase" none "RCONB834" (Except.ok [])
        (fun _ => Except.ok []) =
      HttpOutcome.httpError 500 "404: Bank not found for the given reporting period" ∧
    get_raw_call_data "Chase" none (Except.ok []) (fun _ => Except.ok []) =
      HttpOutcome.httpError 500 "404: Bank not found for the given reporting period" := by
  constructor <;> rfl

/-- A dict matching no query used in the counterexamples. -/
def dAlpha : PyDict := ⟨some "Alpha Bank", some "NY", some "999", none, 0⟩

/-- Counterexample to C7: an empty filer list and a non-empty list in which
no filer matches produce identical responses, so two of the claimed five
distinct empty-data outcomes coincide. -/
theorem empty_vs_unresolved_same_response :
    get_bank_deposit_data "zz" none "RCONB834" (Except.ok []) (fun _ => Except.ok []) =
      get_bank_deposit_data "zz" none "RCONB834" (Except.ok [PyVal.dict dAlpha])
        (fun _ => Except.ok []) := rfl

/-- C7 amended: in `get_bank_deposit_data`, an empty filer list and an
unresolved filer produce the same bank-not-found outcome; once a filer is
resolved, the remaining empty-data conditions (empty time series, empty
extraction result) produce success responses carrying the respective empty
lists, distinct from every error outcome; a missing `id_rssd` is not itself
terminal — the absent identifier is passed on to the data fetch. -/
theorem deposit_empty_stage_outcomes (bn dm : String) (st : Option String)
    (filers : List PyVal) (collect : Option String → Except PyExc (List PyVal))
    (d : PyDict) (ts : List PyVal) :
    ((∀ v ∈ filers, valMatches bn st v = false) →
      get_bank_deposit_data bn st dm (Except.ok filers) collect =
        get_bank_deposit_data bn st dm (Except.ok []) collect) ∧
    (resolveFiler filers bn st = some d → dictFalsy d = false →
      collect d.id_rssd = Except.ok ts →
        get_bank_deposit_data bn st dm (Except.ok filers) collect =
          HttpOutcome.ok ⟨d, extractDeposits ts dm, ts⟩) ∧
    (∀ (b : DepositBody) (s : Nat) (m : String),
      HttpOutcome.ok b ≠ HttpOutcome.httpError s m) := by
  refine ⟨?_, ?_, ?_⟩
  · intro h
    have hnone := resolveFiler_none_of_nomatch h
    simp [get_bank_deposit_data, depositTry, hnone, resolveFiler, runTry]
  · intro h1 h2 h3
    simp [get_bank_deposit_data, depositTry, h1, h2, h3, runTry]
  · intro b s m
    simp

/-- Witness for (amended) C7 at a concrete input: a non-matching filer list
gives the same response as the empty one. -/
theorem deposit_empty_stage_outcomes_witness :
    get_bank_deposit_data "yy" none "RCON2200" (Except.ok [PyVal.dict dAlpha])
        (fun _ => Except.ok []) =
      get_bank_deposit_data "yy" none "RCON2200" (Except.ok [])
        (fun _ => Except.ok []) :=
  (deposit_empty_stage_outcomes "yy" "RCON2200" none [PyVal.dict dAlpha]
      (fun _ => Except.ok []) dAlpha []).1 (by decide)

